import Mathlib

/-! Shallow embedding of the trod repository's expression, field and index
layers (src/trod/types_/field.py and src/trod/types/index.py), together with
theorems settling the specification claims against it.  Python runtime values
are modelled by an inductive `PyVal`; raised exceptions by an `Except PyErr`
result; the process-wide class counters (`FieldBase._field_counter`,
`BaseIndex._attr_key_num`) by an explicit `Counters` state threaded through
the constructors. -/

namespace Trod

/-- Python values that flow through the expression and field layer: None,
booleans, integers, strings, lists and tuples. -/
inductive PyVal where
  | none : PyVal
  | bool : Bool → PyVal
  | int : ℤ → PyVal
  | str : String → PyVal
  | list : List PyVal → PyVal
  | tuple : List PyVal → PyVal

mutual

/-- Python repr() of a value, as used by str() on containers.  A string is
quoted with single quotes (escape \x27); a one-element tuple prints with a
trailing comma, as in Python. -/
def pyRepr : PyVal → String
  | .none => "None"
  | .bool true => "True"
  | .bool false => "False"
  | .int n => toString n
  | .str s => "\x27" ++ s ++ "\x27"
  | .list xs => "[" ++ String.intercalate ", " (pyReprList xs) ++ "]"
  | .tuple [x] => "(" ++ pyRepr x ++ ",)"
  | .tuple xs => "(" ++ String.intercalate ", " (pyReprList xs) ++ ")"

def pyReprList : List PyVal → List String
  | [] => []
  | x :: xs => pyRepr x :: pyReprList xs

end

/-- Python str() of a value: a string is itself, every other value prints as
its repr (f-string interpolation uses this). -/
def pyStr : PyVal → String
  | .str s => s
  | v => pyRepr v

/-- Python isinstance(v, collections.abc.Iterable) over the modelled values:
strings, lists and tuples are iterable; None, booleans and integers are not. -/
def isIterable : PyVal → Bool
  | .str _ => true
  | .list _ => true
  | .tuple _ => true
  | _ => false

/-- Python tuple(v) for an iterable v: a list or tuple yields a tuple of the
same elements, a string a tuple of its one-character strings.  (Non-iterable
values are only reached behind the isIterable guard in the source.) -/
def toTuple : PyVal → PyVal
  | .list xs => .tuple xs
  | .tuple xs => .tuple xs
  | .str s => .tuple (s.data.map (fun c => .str (String.singleton c)))
  | v => v

/-- Python exceptions raised by the embedded code. -/
inductive PyErr where
  | valueError : String → PyErr
  | typeError : String → PyErr
  | attributeError : String → PyErr

/- Operator tokens from the OPER constant table in src/trod/types_/field.py
(lines 7-35). -/
namespace OPER

def AND : String := "AND"
def OR : String := "OR"
def ADD : String := "+"
def SUB : String := "-"
def MUL : String := "*"
def DIV : String := "/"
def BIN_AND : String := "&"
def BIN_OR : String := "|"
def XOR : String := "#"
def MOD : String := "%"
def EQ : String := "="
def LT : String := "<"
def LTE : String := "<="
def GT : String := ">"
def GTE : String := ">="
def NE : String := "!="
def IN : String := "IN"
def NOT_IN : String := "NOT IN"
def IS : String := "IS"
def IS_NOT : String := "IS NOT"
def LIKE : String := "LIKE"
def ILIKE : String := "ILIKE"
def EXISTS : String := "EXISTS"
def BETWEEN : String := "BETWEEN"
def REGEXP : String := "REGEXP"
def IREGEXP : String := "IREGEXP"

end OPER

/-- Cnt (field.py lines 38-49).  __init__ stores the pair as given when encap
is false, and as the strings f-parenthesised around each element when encap is
true; the sql property is the f-string of pair[0], the operator and pair[1].
Stringification of a pair element happens in the f-string either way, so the
encap branch stores already-stringified wrapped elements. -/
structure Cnt where
  pair : PyVal × PyVal
  op : String

/-- Cnt.__init__ (field.py lines 40-45), encap passed positionally. -/
def Cnt.init (pair : PyVal × PyVal) (op : String) (encap : Bool) : Cnt :=
  if encap then
    ⟨(.str ("(" ++ pyStr pair.1 ++ ")"), .str ("(" ++ pyStr pair.2 ++ ")")), op⟩
  else
    ⟨pair, op⟩

/-- Cnt.sql (field.py lines 47-49): f-string of pair[0], op, pair[1] separated
by single spaces, with no parentheses, no semicolon and no quoting added. -/
def Cnt.sql (c : Cnt) : String :=
  pyStr c.pair.1 ++ " " ++ c.op ++ " " ++ pyStr c.pair.2

/-- Column (field.py lines 86-171): a named handle to a table column.  The
name is the raw value given to __init__ (a string in every use the claims
touch). -/
structure Column where
  name : PyVal

/-- Expr (field.py lines 52-61): the expression node (lhs, op, rhs, flat,
logic).  A Column operand is stored by its name attribute; any other operand
is stored as given. -/
structure Expr where
  lhs : PyVal
  op : String
  rhs : PyVal
  flat : Bool
  logic : Bool

/-- An argument to Expr.__init__, before the isinstance(…, Column) test. -/
inductive Operand where
  | col : Column → Operand
  | val : PyVal → Operand

/-- The value Expr.__init__ stores for an operand: lhs.name if the operand is
a Column, the operand itself otherwise (field.py lines 57, 59). -/
def Operand.store : Operand → PyVal
  | .col c => c.name
  | .val v => v

/-- Expr.__init__ (field.py lines 56-61). -/
def Expr.init (lhs : Operand) (op : String) (rhs : Operand) (flat : Bool) (logic : Bool) : Expr :=
  ⟨lhs.store, op, rhs.store, flat, logic⟩

/-- Expr.__sql__ (field.py lines 73-80), also exposed as Expr.sql (lines
82-83).  For IN / NOT IN / EXISTS a non-iterable rhs raises ValueError with
the f-string message of line 77, an iterable rhs is converted to a tuple;
then the fragment is Cnt((lhs, rhs), op, encap=logic).sql.  The in-place
assignment self.rhs = tuple(self.rhs) only feeds the rendering and is
modelled by passing the converted tuple to Cnt directly. -/
def Expr.sql (e : Expr) : Except PyErr String :=
  if e.op = OPER.IN ∨ e.op = OPER.NOT_IN ∨ e.op = OPER.EXISTS then
    if isIterable e.rhs then
      .ok (Cnt.init (e.lhs, toTuple e.rhs) e.op e.logic).sql
    else
      .error (.valueError ("The value of the operator " ++ pyStr e.rhs ++ " should be an Iterable object"))
  else
    .ok (Cnt.init (e.lhs, e.rhs) e.op e.logic).sql

/-- The argument of Expr.__and__ / Expr.__or__ before the
isinstance(expr, self.__class__) test. -/
inductive AndArg where
  | expr : Expr → AndArg
  | val : PyVal → AndArg

/-- Expr.__and__ (field.py lines 63-66): with another Expr it builds
Expr(self.__sql__(), OPER.AND, expr.__sql__(), logic=True), evaluating
self.__sql__() first (exceptions propagate in that order); with anything else
it raises a bare ValueError(). -/
def Expr.and (e : Expr) (other : AndArg) : Except PyErr Expr :=
  match other with
  | .expr e2 =>
    match e.sql with
    | .error err => .error err
    | .ok ls =>
      match e2.sql with
      | .error err => .error err
      | .ok rs => .ok (Expr.init (.val (.str ls)) OPER.AND (.val (.str rs)) false true)
  | .val _ => .error (.valueError "")

/-- Expr.__or__ (field.py lines 68-71), identical to __and__ with OPER.OR. -/
def Expr.or (e : Expr) (other : AndArg) : Except PyErr Expr :=
  match other with
  | .expr e2 =>
    match e.sql with
    | .error err => .error err
    | .ok ls =>
      match e2.sql with
      | .error err => .error err
      | .ok rs => .ok (Expr.init (.val (.str ls)) OPER.OR (.val (.str rs)) false true)
  | .val _ => .error (.valueError "")

/-- Python evaluation of b & e for a boolean literal b and an Expr e: the Expr
class defines no __rand__ (field.py lines 52-83), and bool.__and__ returns
NotImplemented for a non-int right operand, so the interpreter raises
TypeError.  Same for b | e. -/
def boolAndExpr (_b : Bool) (_e : Expr) : Except PyErr Expr :=
  .error (.typeError "unsupported operand types for &: bool and Expr")

/-- Python evaluation of b | e for a boolean literal b and an Expr e; see
boolAndExpr. -/
def boolOrExpr (_b : Bool) (_e : Expr) : Except PyErr Expr :=
  .error (.typeError "unsupported operand types for |: bool and Expr")

/-- The wraper returned by Column._expr(op) (field.py lines 90-96):
Expr(self, op, rhs). -/
def Column.binOp (c : Column) (op : String) (rhs : PyVal) : Expr :=
  Expr.init (.col c) op (.val rhs) false false

/-- The wraper returned by Column._expr(op, inv=True) (field.py lines 90-96):
Expr(rhs, op, self) with the literal on the left. -/
def Column.binOpInv (c : Column) (op : String) (lhs : PyVal) : Expr :=
  Expr.init (.val lhs) op (.col c) false false

/-- Column.__eq__ (field.py lines 122-124): op is IS when rhs is None, EQ
otherwise. -/
def Column.eq (c : Column) (rhs : PyVal) : Expr :=
  match rhs with
  | .none => Expr.init (.col c) OPER.IS (.val .none) false false
  | v => Expr.init (.col c) OPER.EQ (.val v) false false

/-- Column.in_ (field.py line 141): _expr(OPER.IN). -/
def Column.in_ (c : Column) (rhs : PyVal) : Expr :=
  c.binOp OPER.IN rhs

/-- Column.nin (field.py line 142): _expr(OPER.NOT_IN). -/
def Column.nin (c : Column) (rhs : PyVal) : Expr :=
  c.binOp OPER.NOT_IN rhs

/-- Column.exists (field.py line 145): _expr(OPER.EXISTS).  Named existsOp
here because exists is not usable as a Lean identifier in this position. -/
def Column.existsOp (c : Column) (rhs : PyVal) : Expr :=
  c.binOp OPER.EXISTS rhs

/-- Column.between (field.py lines 161-162): Expr(self, OPER.BETWEEN,
Cnt((low, hig), OPER.AND).sql) — the rhs is the already-rendered string
low AND hig. -/
def Column.between (c : Column) (low hig : PyVal) : Expr :=
  Expr.init (.col c) OPER.BETWEEN (.val (.str (Cnt.init (low, hig) OPER.AND false).sql)) false false

/-- The argument of Column.__getitem__: a plain value or a slice with its
start and stop members (Python None marks an absent bound). -/
inductive Item where
  | scalar : PyVal → Item
  | slice : PyVal → PyVal → Item

/-- Column.__getitem__ (field.py lines 164-171): a slice missing start or
stop raises ValueError; a full slice returns self.between(start, stop); any
non-slice item returns self == item. -/
def Column.getitem (c : Column) (item : Item) : Except PyErr Expr :=
  match item with
  | .slice a b =>
    match a with
    | .none => .error (.valueError "BETWEEN range must have both a start and end-point.")
    | _ =>
      match b with
      | .none => .error (.valueError "BETWEEN range must have both a start and end-point.")
      | _ => .ok (c.between a b)
  | .scalar v => .ok (c.eq v)

/-- The two process-wide class counters: FieldBase._field_counter (field.py
line 181) and BaseIndex._attr_key_num (index.py line 9).  They are distinct
class attributes of distinct classes. -/
structure Counters where
  fieldCounter : ℕ
  attrKeyNum : ℕ

/-- FieldBase (field.py lines 174-196): name, null flag, default, comment and
the sequence number taken from FieldBase._field_counter. -/
structure FieldBase where
  name : PyVal
  null : Bool
  default : PyVal
  comment : String
  seqNum : ℕ

/-- FieldBase.__init__ (field.py lines 185-196): a non-bool null raises
ValueError before anything else; otherwise the attributes are set,
FieldBase._field_counter is incremented once and its new value becomes
_seq_num.  BaseIndex._attr_key_num is untouched. -/
def FieldBase.init (name null default : PyVal) (comment : String) (s : Counters) :
    Except PyErr (FieldBase × Counters) :=
  match null with
  | .bool b => .ok (⟨name, b, default, comment, s.fieldCounter + 1⟩,
      ⟨s.fieldCounter + 1, s.attrKeyNum⟩)
  | v => .error (.valueError ("Unexpected `null` type: " ++ pyStr v))

/-- Tinyint (field.py lines 268-297): FieldBase plus unsigned and length. -/
structure Tinyint where
  base : FieldBase
  unsigned : Bool
  length : ℤ

/-- Tinyint.__init__ (field.py lines 277-288): delegates name, null, default
and comment to FieldBase.__init__, then stores unsigned and length. -/
def Tinyint.init (length : ℤ) (unsigned : Bool) (null default : PyVal) (comment : String)
    (name : PyVal) (s : Counters) : Except PyErr (Tinyint × Counters) :=
  match FieldBase.init name null default comment s with
  | .error e => .error e
  | .ok (b, s2) => .ok (⟨b, unsigned, length⟩, s2)

/-- Tinyint._type (field.py lines 290-297): _type_tpl.format gives
tinyint(length), with a trailing " unsigned" when unsigned is True. -/
def Tinyint.typeProp (t : Tinyint) : String :=
  let dataType := "tinyint(" ++ toString t.length ++ ")"
  if t.unsigned then dataType ++ " unsigned" else dataType

/-- Boolean-valued attribute lookup on a Tinyint instance for the names the
_stmt property consults.  The class hierarchy defines null, _allow_null and
unsigned, but no attribute named allow_null — the property (field.py lines
198-200) is _allow_null — so that name raises AttributeError exactly as the
interpreter does. -/
def Tinyint.getattrBool (t : Tinyint) (a : String) : Except PyErr Bool :=
  if a = "null" then .ok t.base.null
  else if a = "_allow_null" then .ok t.base.null
  else if a = "unsigned" then .ok t.unsigned
  else .error (.attributeError a)

/-- FieldBase._stmt evaluated on a Tinyint (field.py lines 206-226).  Its
first line reads self.allow_null, but the defined property is _allow_null, so
the lookup raises AttributeError.  The rest of the body (default type check
against _py_type = int, with bool admitted as a Python int subtype; DEFAULT
and COMMENT clauses joined by _spaces) is translated behind that failing
lookup and is unreachable. -/
def Tinyint.stmtProp (t : Tinyint) : Except PyErr String :=
  match t.getattrBool "allow_null" with
  | .error e => .error e
  | .ok an =>
    let allowNull := if an then "NULL" else "NOT NULL"
    let closing := fun (stmtList : List String) =>
      let stmtList := if t.base.comment = "" then stmtList
        else stmtList ++ ["COMMENT \x27" ++ t.base.comment ++ "\x27"]
      String.intercalate " " stmtList
    match t.base.default with
    | .none => .ok (closing [allowNull])
    | .int n => .ok (closing [allowNull, "DEFAULT " ++ toString n])
    | .bool b => .ok (closing [allowNull, "DEFAULT " ++ pyStr (.bool b)])
    | d => .error (.valueError ("Except default value <class \x27int\x27>, now got " ++ pyStr d))

/-- String-valued attribute lookup on a Tinyint instance for the names the
sql method consults.  The defined properties are _type and _stmt (field.py
lines 202-226, 290-297); the names type and stmt resolve to nothing anywhere
in the class hierarchy and raise AttributeError. -/
def Tinyint.getattrStr (t : Tinyint) (a : String) : Except PyErr String :=
  if a = "_type" then .ok t.typeProp
  else if a = "_stmt" then t.stmtProp
  else .error (.attributeError a)

/-- FieldBase.sql evaluated on a Tinyint (field.py lines 228-229): the
f-string of self.type and self.stmt, with self.type looked up first. -/
def Tinyint.sql (t : Tinyint) : Except PyErr String :=
  match t.getattrStr "type" with
  | .error e => .error e
  | .ok ty =>
    match t.getattrStr "stmt" with
    | .error e => .error e
    | .ok st => .ok (ty ++ " " ++ st)

/-- Int (field.py lines 305-326): Tinyint plus primary_key. -/
structure IntField where
  toTinyint : Tinyint
  primaryKey : Bool

/-- Int.__init__ (field.py lines 309-326): delegates to Tinyint.__init__,
stores primary_key, and when primary_key is True emits a warning if null was
requested and then silently sets self.null = False and self.default = None.
No exception is raised for primary_key combined with a default. -/
def IntField.init (length : ℤ) (unsigned : Bool) (null : PyVal) (primaryKey : Bool)
    (default : PyVal) (comment : String) (name : PyVal) (s : Counters) :
    Except PyErr (IntField × Counters) :=
  match Tinyint.init length unsigned null default comment name s with
  | .error e => .error e
  | .ok (t, s2) =>
    if primaryKey then
      .ok (⟨{ t with base := { t.base with null := false, default := PyVal.none } }, true⟩, s2)
    else
      .ok (⟨t, false⟩, s2)

/-- Bigint (field.py lines 329-331) subclasses Int changing only the class
attribute _db_type; the constructor is inherited unchanged. -/
def Bigint.init (length : ℤ) (unsigned : Bool) (null : PyVal) (primaryKey : Bool)
    (default : PyVal) (comment : String) (name : PyVal) (s : Counters) :
    Except PyErr (IntField × Counters) :=
  IntField.init length unsigned null primaryKey default comment name s

/-- Text (field.py lines 334-365): FieldBase plus encoding; __init__ passes
default=None to the base. -/
structure TextField where
  base : FieldBase
  encoding : PyVal

/-- Text.__init__ (field.py lines 340-348). -/
def TextField.init (encoding null : PyVal) (comment : String) (name : PyVal) (s : Counters) :
    Except PyErr (TextField × Counters) :=
  match FieldBase.init name null PyVal.none comment s with
  | .error e => .error e
  | .ok (b, s2) => .ok (⟨b, encoding⟩, s2)

/-- The column argument of BaseIndex.__init__ (index.py lines 19-22): a list
of column names or a single one.  The claims exercise plain string columns;
a Column/field object there would be rendered through its repr by the
f-string of line 24. -/
inductive IndexColumns where
  | one : String → IndexColumns
  | many : List String → IndexColumns

/-- BaseIndex (index.py lines 7-41): name, comment and the back-quoted
column list.  The name=None branch of __init__ derives the name from the
caller's source line via traceback and is outside this model; the claims
construct keys with explicit names. -/
structure BaseIndex where
  name : String
  comment : String
  column : List String

/-- BaseIndex.__init__ with an explicit name (index.py lines 11-30): a
non-list column is wrapped into a one-element list, then every column is
back-quoted.  No counter of any kind is consulted: the line that would read
the _attr_key property (line 23) is commented out. -/
def BaseIndex.init (column : IndexColumns) (comment : String) (name : String) : BaseIndex :=
  let cols := match column with
    | .many l => l
    | .one c => [c]
  ⟨name, comment, cols.map (fun c => "`" ++ c ++ "`")⟩

/-- BaseIndex.__init__ with the process counters threaded through, to record
that constructing a key neither reads nor writes FieldBase._field_counter or
BaseIndex._attr_key_num. -/
def BaseIndex.initS (column : IndexColumns) (comment : String) (name : String) (s : Counters) :
    BaseIndex × Counters :=
  (BaseIndex.init column comment name, s)

/-- BaseIndex._attr_key (index.py lines 38-41): a property that increments
BaseIndex._attr_key_num — a counter distinct from FieldBase._field_counter —
and returns the new value.  Nothing in the repository calls it. -/
def BaseIndex.attrKey (s : Counters) : ℕ × Counters :=
  (s.attrKeyNum + 1, ⟨s.fieldCounter, s.attrKeyNum + 1⟩)

/-- The cols entry of the options dict (index.py line 28): the back-quoted
columns joined by a bare comma, with no space. -/
def BaseIndex.cols (k : BaseIndex) : String :=
  String.intercalate "," k.column

/-- Key.build (index.py lines 35-36, 44-45): the class template
KEY `{key_name}` ({cols}) COMMENT '{comment}' formatted with the options;
the COMMENT clause is unconditional and no semicolon is appended. -/
def Key.build (k : BaseIndex) : String :=
  "KEY `" ++ k.name ++ "` (" ++ k.cols ++ ") COMMENT \x27" ++ k.comment ++ "\x27"

/-- UniqueKey.build (index.py lines 35-36, 48-49): the same template with the
UNIQUE KEY prefix. -/
def UniqueKey.build (k : BaseIndex) : String :=
  "UNIQUE KEY `" ++ k.name ++ "` (" ++ k.cols ++ ") COMMENT \x27" ++ k.comment ++ "\x27"

/-- Characters used when stating facts about rendered SQL text: the opening
parenthesis, the semicolon and the back-quote (code point 96). -/
def Chr.lparen : Char := '('

def Chr.semi : Char := ';'

def Chr.backquote : Char := Char.ofNat 96

/-- C1 counterexample: the rendered SQL text of the value expression built
from the column age, the operator GT and the operand 10 is the bare string
age > 10 — it does not start with a parenthesis, does not end with a
semicolon, and the column name is not back-quoted — refuting the claimed
shape (`age` > 10 inside one parenthesis pair with a terminating semicolon)
at a concrete input. -/
theorem C1_counterexample :
    (Column.binOp ⟨.str "age"⟩ OPER.GT (.int 10)).sql = .ok "age > 10" ∧
    ("age > 10").data.head? ≠ some Chr.lparen ∧
    ("age > 10").data.getLast? ≠ some Chr.semi ∧
    ("age > 10").data.contains Chr.backquote = false ∧
    "age > 10" ≠ "(`age` > 10);" :=
  ⟨rfl, by decide, by decide, by decide, by decide⟩

/-- C1 (amended): in this expression layer a value expression built from a
column and an operand renders as the bare fragment left OP right — single
spaces around the operator token, no enclosing parentheses, no terminating
semicolon, no parameter binding, and the column name embedded without
back-quotes — for every non-membership operator, with the column on either
side. -/
theorem C1_value_expression_renders_bare (name op : String) (rhs : PyVal)
    (hop : ¬(op = OPER.IN ∨ op = OPER.NOT_IN ∨ op = OPER.EXISTS)) :
    (Column.binOp ⟨.str name⟩ op rhs).sql = .ok (name ++ " " ++ op ++ " " ++ pyStr rhs) ∧
    (Column.binOpInv ⟨.str name⟩ op rhs).sql = .ok (pyStr rhs ++ " " ++ op ++ " " ++ name) := by
  constructor <;>
    simp [Column.binOp, Column.binOpInv, Expr.init, Operand.store, Expr.sql, hop,
      Cnt.init, Cnt.sql, pyStr]

/-- C1 witness: the amended rendering theorem applied at the concrete value
expressions age > 10 and 10 > age. -/
theorem C1_witness :
    (Column.binOp ⟨.str "age"⟩ OPER.GT (.int 10)).sql = .ok "age > 10" ∧
    (Column.binOpInv ⟨.str "age"⟩ OPER.GT (.int 10)).sql = .ok "10 > age" :=
  C1_value_expression_renders_bare "age" OPER.GT (.int 10) (by decide)

/-- C2: evaluating the DDL rendering sql() on the field Tinyint(length=4,
name=ty) raises AttributeError instead of returning any DDL string: sql()
reads self.type and self.stmt while the defined properties are _type and
_stmt, and the _stmt body itself reads self.allow_null while the defined
property is _allow_null. -/
theorem C2_sql_attribute_error :
    Tinyint.sql ⟨⟨.str "ty", true, PyVal.none, "", 1⟩, false, 4⟩ =
      .error (.attributeError "type") ∧
    Tinyint.stmtProp ⟨⟨.str "ty", true, PyVal.none, "", 1⟩, false, 4⟩ =
      .error (.attributeError "allow_null") :=
  ⟨rfl, rfl⟩

/-- C3 counterexample: Int(length=11, primary_key=True, default=1)
constructs successfully — no error of any kind is raised at field
construction time; the constructor silently clears the default to None and
forces null to False. -/
theorem C3_counterexample :
    IntField.init 11 false (.bool true) true (.int 1) "" (.str "int") ⟨0, 0⟩ =
      .ok (⟨⟨⟨.str "int", false, PyVal.none, "", 1⟩, false, 11⟩, true⟩, ⟨1, 0⟩) :=
  rfl

/-- C3 (amended): constructing an Int (or Bigint) field with
primary_key=True together with any default — None or not — never raises at
construction time: the constructor warns when null was requested and then
silently forces null to False and the default to None. -/
theorem C3_primary_key_silent_override (length : ℤ) (unsigned b : Bool)
    (default : PyVal) (comment : String) (name : PyVal) (s : Counters) :
    IntField.init length unsigned (.bool b) true default comment name s =
      .ok (⟨⟨⟨name, false, PyVal.none, comment, s.fieldCounter + 1⟩, unsigned, length⟩, true⟩,
        ⟨s.fieldCounter + 1, s.attrKeyNum⟩) ∧
    Bigint.init length unsigned (.bool b) true default comment name s =
      .ok (⟨⟨⟨name, false, PyVal.none, comment, s.fieldCounter + 1⟩, unsigned, length⟩, true⟩,
        ⟨s.fieldCounter + 1, s.attrKeyNum⟩) :=
  ⟨rfl, rfl⟩

/-- C4 counterexample: a key with an empty comment still renders a COMMENT
clause — KEY `name` (`c1`,`c2`) COMMENT '' — with the columns joined by a
bare comma and no terminating semicolon; that string differs from the
claimed rendering KEY `name` (`c1`, `c2`); at this concrete input. -/
theorem C4_counterexample :
    Key.build (BaseIndex.init (.many ["c1", "c2"]) "" "name") =
      "KEY `name` (`c1`,`c2`) COMMENT \x27\x27" ∧
    "KEY `name` (`c1`,`c2`) COMMENT \x27\x27" ≠ "KEY `name` (`c1`, `c2`);" :=
  ⟨rfl, by decide⟩

/-- C4 (amended): a key declaration always renders its COMMENT clause, empty
comment included — KEY `name` (`c1`,`c2`) COMMENT '<text>' — with the
back-quoted columns joined by a bare comma and with no terminating
semicolon; the unique-key variant renders identically except for the UNIQUE
KEY prefix, and a single non-list column is wrapped into a one-element
column list. -/
theorem C4_key_always_comment_no_terminator (name comment c : String) (cols : List String) :
    Key.build (BaseIndex.init (.many cols) comment name) =
      "KEY `" ++ name ++ "` (" ++
        String.intercalate "," (cols.map (fun x => "`" ++ x ++ "`")) ++
        ") COMMENT \x27" ++ comment ++ "\x27" ∧
    UniqueKey.build (BaseIndex.init (.many cols) comment name) =
      "UNIQUE KEY `" ++ name ++ "` (" ++
        String.intercalate "," (cols.map (fun x => "`" ++ x ++ "`")) ++
        ") COMMENT \x27" ++ comment ++ "\x27" ∧
    BaseIndex.init (.one c) comment name = BaseIndex.init (.many [c]) comment name :=
  ⟨rfl, rfl, rfl⟩

/-- C5 counterexample: constructing a field, then a key, then another field
from the initial counter state: the key construction touches neither
FieldBase._field_counter nor BaseIndex._attr_key_num (both remain at ⟨1, 0⟩)
and the key carries no sequence number, while the two fields receive 1 and 2
from the field counter alone — so no single shared counter is incremented
once per field/key construction. -/
theorem C5_counterexample :
    Tinyint.init 4 false (.bool true) PyVal.none "" (.str "a") ⟨0, 0⟩ =
      .ok (⟨⟨.str "a", true, PyVal.none, "", 1⟩, false, 4⟩, ⟨1, 0⟩) ∧
    BaseIndex.initS (.many ["c1"]) "" "k" ⟨1, 0⟩ = (⟨"k", "", ["`c1`"]⟩, ⟨1, 0⟩) ∧
    Tinyint.init 4 false (.bool true) PyVal.none "" (.str "b") ⟨1, 0⟩ =
      .ok (⟨⟨.str "b", true, PyVal.none, "", 2⟩, false, 4⟩, ⟨2, 0⟩) :=
  ⟨rfl, rfl, rfl⟩

/-- C5 (amended): every field declaration draws its sequence number from
FieldBase._field_counter, which is incremented exactly once per field
construction so that consecutive field declarations receive strictly
increasing, distinct numbers; key declarations draw no sequence number at
construction and leave both process counters untouched, and the _attr_key
property — never called at construction — draws from the separate
BaseIndex._attr_key_num counter without touching the field counter. -/
theorem C5_field_counter_only (name default : PyVal) (b : Bool) (comment : String)
    (s : Counters) (col : IndexColumns) (kcomment kname : String) :
    FieldBase.init name (.bool b) default comment s =
      .ok (⟨name, b, default, comment, s.fieldCounter + 1⟩,
        ⟨s.fieldCounter + 1, s.attrKeyNum⟩) ∧
    (BaseIndex.initS col kcomment kname s).2 = s ∧
    (BaseIndex.attrKey s).1 = s.attrKeyNum + 1 ∧
    (BaseIndex.attrKey s).2.fieldCounter = s.fieldCounter :=
  ⟨rfl, rfl, rfl, rfl⟩

/-- C6 counterexample: combining age > 10 and name = test with the logical
AND renders (age > 10) AND (name = test) — each side in its own parenthesis
pair but with no outer enclosing pair — which differs from the claimed form
((age > 10) AND (name = test)). -/
theorem C6_counterexample :
    Expr.and (Column.binOp ⟨.str "age"⟩ OPER.GT (.int 10))
        (.expr (Column.eq ⟨.str "name"⟩ (.str "test"))) =
      .ok (Expr.init (.val (.str "age > 10")) OPER.AND (.val (.str "name = test")) false true) ∧
    (Expr.init (.val (.str "age > 10")) OPER.AND (.val (.str "name = test")) false true).sql =
      .ok "(age > 10) AND (name = test)" ∧
    "(age > 10) AND (name = test)" ≠ "((age > 10) AND (name = test))" :=
  ⟨rfl, rfl, by decide⟩

/-- C6 (amended): for any two expressions whose fragments render, a & b (and
a | b) combines the two rendered fragments into a logic-flagged expression
whose compiled text is (<a>) AND (<b>) (respectively OR): each operand
fragment is wrapped in its own parenthesis pair, with no outer enclosing
pair and no terminator. -/
theorem C6_each_side_parenthesized (e1 e2 : Expr) (s1 s2 : String)
    (h1 : e1.sql = .ok s1) (h2 : e2.sql = .ok s2) :
    Expr.and e1 (.expr e2) =
      .ok (Expr.init (.val (.str s1)) OPER.AND (.val (.str s2)) false true) ∧
    Expr.or e1 (.expr e2) =
      .ok (Expr.init (.val (.str s1)) OPER.OR (.val (.str s2)) false true) ∧
    (Expr.init (.val (.str s1)) OPER.AND (.val (.str s2)) false true).sql =
      .ok ("(" ++ s1 ++ ")" ++ " " ++ OPER.AND ++ " " ++ ("(" ++ s2 ++ ")")) ∧
    (Expr.init (.val (.str s1)) OPER.OR (.val (.str s2)) false true).sql =
      .ok ("(" ++ s1 ++ ")" ++ " " ++ OPER.OR ++ " " ++ ("(" ++ s2 ++ ")")) := by
  refine ⟨?_, ?_, ?_, ?_⟩
  · simp only [Expr.and, h1, h2]
  · simp only [Expr.or, h1, h2]
  · rfl
  · rfl

/-- C6 witness: the logical-composition theorem applied at the concrete
expressions age > 10 and name = test. -/
theorem C6_witness :
    (Expr.and (Column.binOp ⟨.str "age"⟩ OPER.GT (.int 10))
        (.expr (Column.eq ⟨.str "name"⟩ (.str "test"))) =
      .ok (Expr.init (.val (.str "age > 10")) OPER.AND (.val (.str "name = test")) false true)) ∧
    (Expr.or (Column.binOp ⟨.str "age"⟩ OPER.GT (.int 10))
        (.expr (Column.eq ⟨.str "name"⟩ (.str "test"))) =
      .ok (Expr.init (.val (.str "age > 10")) OPER.OR (.val (.str "name = test")) false true)) ∧
    ((Expr.init (.val (.str "age > 10")) OPER.AND (.val (.str "name = test")) false true).sql =
      .ok "(age > 10) AND (name = test)") ∧
    ((Expr.init (.val (.str "age > 10")) OPER.OR (.val (.str "name = test")) false true).sql =
      .ok "(age > 10) OR (name = test)") :=
  C6_each_side_parenthesized (Column.binOp ⟨.str "age"⟩ OPER.GT (.int 10))
    (Column.eq ⟨.str "name"⟩ (.str "test")) "age > 10" "name = test" rfl rfl

/-- C7 counterexample: combining the expression age > 10 with the boolean
literal True via & raises a bare ValueError — the combination the claim says
is permitted. -/
theorem C7_counterexample :
    Expr.and (Column.binOp ⟨.str "age"⟩ OPER.GT (.int 10)) (.val (.bool true)) =
      .error (.valueError "") :=
  rfl

/-- C7 (amended): combining any value that is not an expression — boolean
literals included — with an expression via & or | fails: as the right
operand it raises a bare ValueError from the isinstance check, and as the
left operand the interpreter raises TypeError because the expression class
defines no reflected implementation. -/
theorem C7_non_expr_combination_fails (e : Expr) (v : PyVal) (b : Bool) :
    Expr.and e (.val v) = .error (.valueError "") ∧
    Expr.or e (.val v) = .error (.valueError "") ∧
    boolAndExpr b e = .error (.typeError "unsupported operand types for &: bool and Expr") ∧
    boolOrExpr b e = .error (.typeError "unsupported operand types for |: bool and Expr") :=
  ⟨rfl, rfl, rfl, rfl⟩

/-- C8: item access on a column with a full slice (both bounds non-None) is
identical to calling between with those bounds; a slice whose start or stop
is missing raises a ValueError; and item access with a plain non-None scalar
renders the equality operator. -/
theorem C8_getitem_between_eq (name : String) (a b v : PyVal) :
    (a ≠ PyVal.none → b ≠ PyVal.none →
      Column.getitem ⟨.str name⟩ (.slice a b) = .ok (Column.between ⟨.str name⟩ a b)) ∧
    Column.getitem ⟨.str name⟩ (.slice PyVal.none b) =
      .error (.valueError "BETWEEN range must have both a start and end-point.") ∧
    Column.getitem ⟨.str name⟩ (.slice a PyVal.none) =
      .error (.valueError "BETWEEN range must have both a start and end-point.") ∧
    (v ≠ PyVal.none →
      Column.getitem ⟨.str name⟩ (.scalar v) =
        .ok (Expr.init (.col ⟨.str name⟩) OPER.EQ (.val v) false false)) := by
  refine ⟨?_, rfl, ?_, ?_⟩
  · intro ha hb
    cases a <;>
      first
        | exact absurd rfl ha
        | (cases b <;> first | exact absurd rfl hb | rfl)
  · cases a <;> rfl
  · intro hv
    cases v <;> first | exact absurd rfl hv | rfl

/-- C8 witness: the getitem theorem applied at the column age with the
bounds 20 and 30 and the scalar 10. -/
theorem C8_witness :
    Column.getitem ⟨.str "age"⟩ (.slice (.int 20) (.int 30)) =
      .ok (Column.between ⟨.str "age"⟩ (.int 20) (.int 30)) ∧
    Column.getitem ⟨.str "age"⟩ (.slice PyVal.none (.int 30)) =
      .error (.valueError "BETWEEN range must have both a start and end-point.") ∧
    Column.getitem ⟨.str "age"⟩ (.slice (.int 20) PyVal.none) =
      .error (.valueError "BETWEEN range must have both a start and end-point.") ∧
    Column.getitem ⟨.str "age"⟩ (.scalar (.int 10)) =
      .ok (Expr.init (.col ⟨.str "age"⟩) OPER.EQ (.val (.int 10)) false false) :=
  ⟨(C8_getitem_between_eq "age" (.int 20) (.int 30) (.int 10)).1
      (fun h => PyVal.noConfusion h) (fun h => PyVal.noConfusion h),
   (C8_getitem_between_eq "age" (.int 20) (.int 30) (.int 10)).2.1,
   (C8_getitem_between_eq "age" (.int 20) (.int 30) (.int 10)).2.2.1,
   (C8_getitem_between_eq "age" (.int 20) (.int 30) (.int 10)).2.2.2
      (fun h => PyVal.noConfusion h)⟩

/-- C9 counterexample: compiling name IN 10 — a non-iterable right-hand
side — raises a ValueError (the library's invalid-value error), not a
type-mismatch error as the claim states. -/
theorem C9_counterexample :
    (Column.in_ ⟨.str "name"⟩ (.int 10)).sql =
      .error (.valueError "The value of the operator 10 should be an Iterable object") :=
  rfl

/-- C9 (amended): for in_ and nin (and exists), an iterable right-hand side
is converted to a tuple whose Python text is embedded directly into the
rendered SQL when the expression is compiled — this layer binds no
parameters — and compiling with any non-iterable right-hand side fails with
a ValueError (an invalid-value error, not a type-mismatch error). -/
theorem C9_membership_render (name : String) (rhs : PyVal) :
    (isIterable rhs = false →
      (Column.in_ ⟨.str name⟩ rhs).sql =
        .error (.valueError ("The value of the operator " ++ pyStr rhs ++ " should be an Iterable object")) ∧
      (Column.nin ⟨.str name⟩ rhs).sql =
        .error (.valueError ("The value of the operator " ++ pyStr rhs ++ " should be an Iterable object")) ∧
      (Column.existsOp ⟨.str name⟩ rhs).sql =
        .error (.valueError ("The value of the operator " ++ pyStr rhs ++ " should be an Iterable object"))) ∧
    (isIterable rhs = true →
      (Column.in_ ⟨.str name⟩ rhs).sql =
        .ok (name ++ " " ++ OPER.IN ++ " " ++ pyStr (toTuple rhs)) ∧
      (Column.nin ⟨.str name⟩ rhs).sql =
        .ok (name ++ " " ++ OPER.NOT_IN ++ " " ++ pyStr (toTuple rhs)) ∧
      (Column.existsOp ⟨.str name⟩ rhs).sql =
        .ok (name ++ " " ++ OPER.EXISTS ++ " " ++ pyStr (toTuple rhs))) := by
  constructor
  · intro h
    refine ⟨?_, ?_, ?_⟩ <;>
      simp [Column.in_, Column.nin, Column.existsOp, Column.binOp, Expr.init, Operand.store,
        Expr.sql, h, Cnt.init, Cnt.sql, pyStr]
  · intro h
    refine ⟨?_, ?_, ?_⟩ <;>
      simp [Column.in_, Column.nin, Column.existsOp, Column.binOp, Expr.init, Operand.store,
        Expr.sql, h, Cnt.init, Cnt.sql, pyStr]

/-- C9 witness: the membership theorem applied at an iterable right-hand
side (a two-element list, rendered as its tuple text with no parameter) and
at the non-iterable right-hand side 10. -/
theorem C9_witness :
    (Column.in_ ⟨.str "name"⟩ (.list [.str "at7h", .str "mejor"])).sql =
      .ok "name IN (\x27at7h\x27, \x27mejor\x27)" ∧
    (Column.nin ⟨.str "name"⟩ (.int 10)).sql =
      .error (.valueError "The value of the operator 10 should be an Iterable object") :=
  ⟨((C9_membership_render "name" (.list [.str "at7h", .str "mejor"])).2 rfl).1,
   ((C9_membership_render "name" (.int 10)).1 rfl).2.1⟩

/-- C10: constructing any field with a null argument that is not a boolean
raises a ValueError at construction time, before the field value exists;
the check lives in FieldBase.__init__ and therefore applies uniformly to
Tinyint, Int and Text (and every other subclass delegating to the base). -/
theorem C10_null_bool_check (name default null encoding : PyVal) (comment : String)
    (s : Counters) (length : ℤ) (unsigned primaryKey : Bool)
    (h : ∀ b : Bool, null ≠ PyVal.bool b) :
    FieldBase.init name null default comment s =
      .error (.valueError ("Unexpected `null` type: " ++ pyStr null)) ∧
    Tinyint.init length unsigned null default comment name s =
      .error (.valueError ("Unexpected `null` type: " ++ pyStr null)) ∧
    IntField.init length unsigned null primaryKey default comment name s =
      .error (.valueError ("Unexpected `null` type: " ++ pyStr null)) ∧
    TextField.init encoding null comment name s =
      .error (.valueError ("Unexpected `null` type: " ++ pyStr null)) := by
  have hbase : ∀ d : PyVal, FieldBase.init name null d comment s =
      .error (.valueError ("Unexpected `null` type: " ++ pyStr null)) := by
    intro d
    cases null with
    | bool b => exact absurd rfl (h b)
    | none => rfl
    | int n => rfl
    | str t => rfl
    | list l => rfl
    | tuple l => rfl
  have htiny : Tinyint.init length unsigned null default comment name s =
      .error (.valueError ("Unexpected `null` type: " ++ pyStr null)) := by
    simp only [Tinyint.init, hbase default]
  refine ⟨hbase default, htiny, ?_, ?_⟩
  · simp only [IntField.init, htiny]
  · simp only [TextField.init, hbase PyVal.none]

/-- C10 witness: the null-type-check theorem applied with the non-boolean
null argument 1. -/
theorem C10_witness :
    FieldBase.init (.str "x") (.int 1) PyVal.none "" ⟨0, 0⟩ =
      .error (.valueError "Unexpected `null` type: 1") ∧
    Tinyint.init 4 false (.int 1) PyVal.none "" (.str "x") ⟨0, 0⟩ =
      .error (.valueError "Unexpected `null` type: 1") ∧
    IntField.init 4 false (.int 1) false PyVal.none "" (.str "x") ⟨0, 0⟩ =
      .error (.valueError "Unexpected `null` type: 1") ∧
    TextField.init PyVal.none (.int 1) "" (.str "x") ⟨0, 0⟩ =
      .error (.valueError "Unexpected `null` type: 1") :=
  C10_null_bool_check (.str "x") PyVal.none (.int 1) PyVal.none "" ⟨0, 0⟩ 4 false false
    (fun _b h => PyVal.noConfusion h)

end Trod
